import Mathlib

/-!
Shallow embedding of `TerminalChatController`
(src/vs/workbench/contrib/terminalContrib/chat/browser/terminalChatController.ts).

The controller drives one request/response cycle with a chat agent: it
notifies the accessibility service, sets the active-request context key,
streams progress chunks into a text buffer, and on completion classifies the
buffer as a terminal command (first fenced code block, fences stripped) or a
plain message.  Collaborator calls (widget, accessibility service) are
recorded as an ordered event list; context keys and the accessibility counter
are explicit state.
-/

namespace TerminalChat

/-- The backtick character, U+0060. -/
def backtick : Char := Char.ofNat 96

/-- Modelled from the spec: the repository's vendored markdown lexer
(`vs/base/common/marked/marked`) is not part of the provided sources, so the
command-extraction front end is modelled per the spec's words, as a "minimal
fenced-code-block scanner: find the first top-level fenced block in the
response text" — a fenced block being "a markup convention delimiting literal
text with triple-backtick markers".  `splitAtFence cs` returns the characters
before the first triple-backtick marker and the characters after it, or
`none` when no marker occurs. -/
def splitAtFence : List Char → Option (List Char × List Char)
  | [] => none
  | [_] => none
  | [_, _] => none
  | c :: d :: e :: rest =>
    if c = backtick ∧ d = backtick ∧ e = backtick then
      some ([], rest)
    else
      (splitAtFence (d :: e :: rest)).map (fun p => (c :: p.1, p.2))

/-- Modelled from the spec: the raw text of the first fenced-code token of
the buffer, delimiters included, or `none` when the buffer holds no fenced
block (fewer than two triple-backtick markers). -/
def firstFencedRaw (s : List Char) : Option (List Char) :=
  match splitAtFence s with
  | none => none
  | some (_, afterOpen) =>
    match splitAtFence afterOpen with
    | none => none
    | some (mid, _) =>
      some ([backtick, backtick, backtick] ++ mid ++ [backtick, backtick, backtick])

/-- String-level wrapper of `firstFencedRaw`. -/
def firstFencedRawStr (s : String) : Option String :=
  (firstFencedRaw s.data).map String.mk

/-- Embeds `raw.replaceAll('```', '')` (line 157): delete every non-overlapping
occurrence of a triple backtick, scanning left to right. -/
def stripTicksAux : List Char → List Char
  | [] => []
  | [c] => [c]
  | [c, d] => [c, d]
  | c :: d :: e :: rest =>
    if c = backtick ∧ d = backtick ∧ e = backtick then
      stripTicksAux rest
    else
      c :: stripTicksAux (d :: e :: rest)

/-- String-level wrapper of `stripTicksAux`. -/
def stripFences (s : String) : String := String.mk (stripTicksAux s.data)

/-- Embeds line 157:
`marked.lexer(message).filter(token => token.type === 'code')?.[0]?.raw.replaceAll('```', '')`
with the lexer spec-modelled by `firstFencedRawStr`. -/
def extractCommand (message : String) : Option String :=
  (firstFencedRawStr message).map stripFences

/-- JavaScript truthiness of the `codeBlock` value (`string | undefined`):
defined and non-empty. -/
def truthy : Option String → Bool
  | some s => s != ""
  | none => false

/-- The only value of `InlineChatResponseTypes` this controller ever writes
(line 167). -/
inductive InlineChatResponseTypes
  | onlyMessages
deriving DecidableEq, Repr

/-- Kind of an `IChatProgress` chunk, as tested on line 132: the two
text-bearing kinds and everything else. -/
inductive ChunkKind
  | content
  | markdownContent
  | other
deriving DecidableEq, Repr

/-- One progress chunk: its kind and its `content` text (read only for the
text-bearing kinds). -/
structure Chunk where
  kind : ChunkKind
  content : String
deriving DecidableEq, Repr

/-- One chunk as delivered to `progressCallback`, together with the state the
shared cancellation token showed at that delivery (line 128). -/
structure DeliveredChunk where
  chunk : Chunk
  cancelledAtDelivery : Bool
deriving DecidableEq, Repr

/-- An observable call on a collaborator, in program order. -/
inductive Event
  | acceptRequest
  | setValue
  | updateProgressChunk (c : Chunk)
  | updateProgressClear
  | renderTerminalCommand (text : String) (counter : Nat)
  | renderMessage (text : String) (counter : Nat)
  | layoutWidget (width : Nat)
deriving DecidableEq, Repr

/-- An `IDimension`. -/
structure Dimension where
  width : Nat
  height : Nat
deriving DecidableEq, Repr

/-- Controller state: the feature flag sampled at construction, the
accessibility counter, the three context keys this file writes, the
cancellation-token source's flag, and the widget fields. -/
structure CtrlState where
  enabled : Bool
  accessibilityRequestId : Nat
  ctxHasActiveRequest : Bool
  ctxLastResponseType : Option InlineChatResponseTypes
  cancellationRequested : Bool
  chatWidgetCreated : Bool
  widgetRawAttached : Bool
  lastLayoutDimensions : Option Dimension
deriving DecidableEq, Repr

/-- Embeds `cancel()` (lines 117-119): cancel the shared token source.  The
source is never replaced, so the flag stays set for all later requests. -/
def cancel (st : CtrlState) : CtrlState :=
  { st with cancellationRequested := true }

/-- Embeds `layout` (lines 81-87): gated on the feature flag; stores the
dimensions and forwards the width to the widget when its raw value exists. -/
def layout (st : CtrlState) (dim : Dimension) : CtrlState × List Event :=
  if st.enabled = false then (st, [])
  else
    ({ st with lastLayoutDimensions := some dim },
     if st.widgetRawAttached then [Event.layoutWidget dim.width] else [])

/-- Embeds `xtermReady` (lines 89-115): gated on the feature flag; installs
the lazy widget factory without forcing it (no collaborator call yet). -/
def xtermReady (st : CtrlState) : CtrlState × List Event :=
  if st.enabled = false then (st, [])
  else ({ st with chatWidgetCreated := true }, [])

/-- The text a chunk contributes to the running buffer (lines 132-134):
`content` for the two text-bearing kinds, nothing otherwise. -/
def chunkText (c : Chunk) : String :=
  match c.kind with
  | ChunkKind.content => c.content
  | ChunkKind.markdownContent => c.content
  | ChunkKind.other => ""

/-- Embeds `progressCallback` (lines 127-136) folded over the chunks the
agent delivers: a chunk seen while the token reads cancelled is a no-op;
otherwise the text-bearing kinds extend the buffer and the raw chunk is
forwarded to the widget's progress update when the widget is attached.
`srcCancelled` is the token source's flag at the start of the run (it can
only make the token read cancelled earlier, never later). -/
def processChunks (srcCancelled : Bool) (w : Bool) (buf : String) :
    List DeliveredChunk → String × List Event
  | [] => (buf, [])
  | d :: ds =>
    if srcCancelled || d.cancelledAtDelivery then
      processChunks srcCancelled w buf ds
    else
      let next := processChunks srcCancelled w (buf ++ chunkText d.chunk) ds
      (next.1, (if w then [Event.updateProgressChunk d.chunk] else []) ++ next.2)

/-- The behaviour of one agent invocation, external input to `acceptInput`:
the chunks delivered to the progress callback, whether `invokeAgent` rejected,
and what the shared token showed at the post-completion check (line 159),
beyond what the source already showed at the start. -/
structure RunInput where
  chunks : List DeliveredChunk
  agentErrors : Bool
  cancelledAtFinalCheck : Bool
deriving DecidableEq, Repr

/-- Outcome classification of one `acceptInput` run. -/
inductive Outcome
  | failed
  | cancelled
  | command
  | message
deriving DecidableEq, Repr

/-- Result of one `acceptInput` run: the ordered collaborator calls, whether
the run raised a JavaScript error (only on the disabled path, where the
never-bound context key is dereferenced), the post state, the outcome
classification (`none` when crashed), and the final text buffer. -/
structure RunResult where
  events : List Event
  crashed : Bool
  state : CtrlState
  outcome : Option Outcome
  buffer : String
deriving DecidableEq, Repr

/-- Embeds `acceptInput` (lines 121-171).  When the feature flag is off the
constructor returned early, so `_ctxHasActiveRequest` was never bound: line
123 still calls the accessibility service, then line 124 throws on the
undefined context key.  Otherwise: set the active flag, clear the input
(line 147), stream the chunks, and either fail out of the catch block
(lines 151-156), stop at the cancellation check (lines 159-161) — the
counter having been incremented at line 158 — or render exactly one of a
terminal command and a message. -/
def acceptInput (st : CtrlState) (inp : RunInput) : RunResult :=
  if st.enabled = false then
    { events := [Event.acceptRequest], crashed := true, state := st,
      outcome := none, buffer := "" }
  else
    let w := st.widgetRawAttached
    let stActive := { st with ctxHasActiveRequest := true }
    let run := processChunks st.cancellationRequested w "" inp.chunks
    let preEvents :=
      Event.acceptRequest :: ((if w then [Event.setValue] else []) ++ run.2)
    if inp.agentErrors then
      { events := preEvents ++ (if w then [Event.updateProgressClear] else []),
        crashed := false,
        state := { stActive with ctxHasActiveRequest := false },
        outcome := some Outcome.failed, buffer := run.1 }
    else
      let codeBlock := extractCommand run.1
      let stCounted :=
        { stActive with accessibilityRequestId := stActive.accessibilityRequestId + 1 }
      if st.cancellationRequested || inp.cancelledAtFinalCheck then
        { events := preEvents, crashed := false, state := stCounted,
          outcome := some Outcome.cancelled, buffer := run.1 }
      else
        let msgResult : RunResult :=
          { events := preEvents
              ++ (if w then
                    [Event.renderMessage run.1 stCounted.accessibilityRequestId]
                  else [])
              ++ (if w then [Event.updateProgressClear] else []),
            crashed := false,
            state := { stCounted with
                       ctxHasActiveRequest := false,
                       ctxLastResponseType :=
                         some InlineChatResponseTypes.onlyMessages },
            outcome := some Outcome.message, buffer := run.1 }
        match codeBlock with
        | some cb =>
          if cb != "" then
            { events := preEvents
                ++ (if w then
                      [Event.renderTerminalCommand cb stCounted.accessibilityRequestId]
                    else [])
                ++ (if w then [Event.updateProgressClear] else []),
              crashed := false,
              state := { stCounted with ctxHasActiveRequest := false },
              outcome := some Outcome.command, buffer := run.1 }
          else msgResult
        | none => msgResult

/-- Whether an event is one of the two render calls. -/
def isRenderEvent : Event → Bool
  | Event.renderTerminalCommand _ _ => true
  | Event.renderMessage _ _ => true
  | _ => false

/-- Whether an event is the render-message call. -/
def isMessageRender : Event → Bool
  | Event.renderMessage _ _ => true
  | _ => false

/-- Specification-side expression for C8: the in-order concatenation of the
content of the text-bearing chunks. -/
def specTextConcat : List DeliveredChunk → String
  | [] => ""
  | d :: ds =>
    (if d.chunk.kind = ChunkKind.content ∨ d.chunk.kind = ChunkKind.markdownContent
     then d.chunk.content else "") ++ specTextConcat ds

/-- Whether any render call occurs in an event list. -/
def hasRenderEvent (evs : List Event) : Bool := evs.any isRenderEvent

/-- Number of render calls in an event list. -/
def countRender (evs : List Event) : Nat := (evs.filter isRenderEvent).length

/-- A concrete enabled controller state used for witnesses and
counterexamples. -/
def demoState : CtrlState :=
  { enabled := true, accessibilityRequestId := 0, ctxHasActiveRequest := false,
    ctxLastResponseType := none, cancellationRequested := false,
    chatWidgetCreated := true, widgetRawAttached := true,
    lastLayoutDimensions := none }

/-- A run in which the agent delivers a single `content` chunk and succeeds,
with no cancellation. -/
def singleRun (s : String) : RunInput :=
  { chunks := [⟨⟨ChunkKind.content, s⟩, false⟩], agentErrors := false,
    cancelledAtFinalCheck := false }

/-- A run in which the agent succeeds with no chunks but the token is set by
the time of the post-completion check. -/
def cancelRun : RunInput :=
  { chunks := [], agentErrors := false, cancelledAtFinalCheck := true }

/-- A run in which the agent invocation rejects. -/
def errorRun : RunInput :=
  { chunks := [], agentErrors := true, cancelledAtFinalCheck := false }

/-- When the token source is already cancelled at the start of the run, the
progress callback is a no-op on every chunk: the buffer stays as it was and
no progress update reaches the widget. -/
theorem processChunks_src_cancelled (w : Bool) (buf : String)
    (ds : List DeliveredChunk) : processChunks true w buf ds = (buf, []) := by
  induction ds with
  | nil => rfl
  | cons d ds ih => simp [processChunks, ih]

/-- No event emitted by the progress callback satisfies a predicate that
rejects progress-update events. -/
theorem processChunks_filter_none (p : Event → Bool)
    (hp : ∀ c, p (Event.updateProgressChunk c) = false)
    (s w : Bool) (buf : String) (ds : List DeliveredChunk) :
    (processChunks s w buf ds).2.filter p = [] := by
  induction ds generalizing buf with
  | nil => rfl
  | cons d ds ih =>
    rw [processChunks]
    split
    · exact ih buf
    · cases w <;> simp [List.filter_append, hp, ih]

/-- Any-form of `processChunks_filter_none`. -/
theorem processChunks_any_none (p : Event → Bool)
    (hp : ∀ c, p (Event.updateProgressChunk c) = false)
    (s w : Bool) (buf : String) (ds : List DeliveredChunk) :
    (processChunks s w buf ds).2.any p = false := by
  rw [List.any_eq_false]
  intro x hx
  have h := List.filter_eq_nil_iff.mp (processChunks_filter_none p hp s w buf ds) x hx
  simpa using h

/-- While the token never reads cancelled, each chunk is forwarded to the
widget in arrival order and the buffer extends by exactly the text-bearing
content. -/
theorem processChunks_live (buf : String) (ds : List DeliveredChunk)
    (h : ∀ d ∈ ds, d.cancelledAtDelivery = false) :
    processChunks false true buf ds =
      (buf ++ specTextConcat ds,
       ds.map (fun d => Event.updateProgressChunk d.chunk)) := by
  induction ds generalizing buf with
  | nil => simp [processChunks, specTextConcat, String.append_empty]
  | cons d ds ih =>
    have hd : d.cancelledAtDelivery = false := h d (List.mem_cons_self d ds)
    have hds : ∀ x ∈ ds, x.cancelledAtDelivery = false :=
      fun x hx => h x (List.mem_cons_of_mem d hx)
    rw [processChunks]
    simp only [hd, Bool.false_or, if_neg Bool.false_ne_true, ih _ hds,
      specTextConcat, List.map_cons, ite_true, Prod.mk.injEq]
    constructor
    · rw [← String.append_assoc]
      congr 1
      cases hk : d.chunk.kind <;> simp [chunkText, hk]
    · simp

/-- C1 counterexample: with the token set at the post-completion check
(enabled state, successful agent call, no chunks), the claim "no render call
is made AND the active-request flag is cleared before return" is false: no
render call happens, but the run returns with the flag still true (the
`return` on line 160 skips the `set(false)` on line 169). -/
theorem c1_counterexample :
    ¬ (hasRenderEvent (acceptInput demoState cancelRun).events = false ∧
       (acceptInput demoState cancelRun).state.ctxHasActiveRequest = false) := by
  decide

/-- C1 amended: if the cancellation token is signaled before `acceptInput`
reaches its classification step, no render-command or render-message call is
made on the widget and the run ends with outcome Cancelled, but the
active-request context flag REMAINS TRUE (it is not cleared before
`acceptInput` returns). -/
theorem c1_cancelled_no_render_flag_stays_set (st : CtrlState) (inp : RunInput)
    (he : st.enabled = true) (hna : inp.agentErrors = false)
    (hc : (st.cancellationRequested || inp.cancelledAtFinalCheck) = true) :
    hasRenderEvent (acceptInput st inp).events = false ∧
    (acceptInput st inp).outcome = some Outcome.cancelled ∧
    (acceptInput st inp).state.ctxHasActiveRequest = true := by
  have hr := processChunks_any_none isRenderEvent (fun c => rfl)
  cases hw : st.widgetRawAttached <;>
    simp [acceptInput, he, hna, hc, hw, hasRenderEvent, isRenderEvent, hr]

/-- C1 witness for the amended theorem. -/
theorem c1_cancelled_no_render_flag_stays_set_witness :
    hasRenderEvent (acceptInput demoState cancelRun).events = false ∧
    (acceptInput demoState cancelRun).outcome = some Outcome.cancelled ∧
    (acceptInput demoState cancelRun).state.ctxHasActiveRequest = true :=
  c1_cancelled_no_render_flag_stays_set demoState cancelRun (by decide)
    (by decide) (by decide)

/-- C2: after `cancel()` has been called once, every later `acceptInput`
(here: any successful-agent run from the cancelled state) reuses the same,
permanently cancelled token source: the progress callback appends nothing to
the buffer, the run classifies as Cancelled without any render call, and the
source flag is still set afterwards, so the same holds for all subsequent
requests. -/
theorem c2_cancel_poisons_later_requests (st : CtrlState) (inp : RunInput)
    (he : st.enabled = true) (hok : inp.agentErrors = false) :
    (acceptInput (cancel st) inp).buffer = "" ∧
    (acceptInput (cancel st) inp).outcome = some Outcome.cancelled ∧
    hasRenderEvent (acceptInput (cancel st) inp).events = false ∧
    (acceptInput (cancel st) inp).state.cancellationRequested = true := by
  cases hw : st.widgetRawAttached <;>
    simp [acceptInput, cancel, he, hok, hw, hasRenderEvent, isRenderEvent,
      processChunks_src_cancelled]

/-- C2 witness. -/
theorem c2_cancel_poisons_later_requests_witness :
    (acceptInput (cancel demoState) (singleRun "hello")).buffer = "" ∧
    (acceptInput (cancel demoState) (singleRun "hello")).outcome =
      some Outcome.cancelled ∧
    hasRenderEvent (acceptInput (cancel demoState) (singleRun "hello")).events
      = false ∧
    (acceptInput (cancel demoState) (singleRun "hello")).state.cancellationRequested
      = true :=
  c2_cancel_poisons_later_requests demoState (singleRun "hello") (by decide)
    (by decide)

/-- C3 counterexample: on an agent-error run (enabled state) the counter is
NOT incremented — the `_accessibilityRequestId++` on line 158 sits after the
`catch` block's early `return`, refuting "incremented exactly once regardless
of outcome classification (including agent error)". -/
theorem c3_counterexample :
    ¬ ((acceptInput demoState errorRun).state.accessibilityRequestId =
        demoState.accessibilityRequestId + 1) := by
  decide

/-- C3 amended: the accessibility-request counter is incremented exactly once
on every run in which the agent invocation does not error — command, message
and cancelled outcomes alike (the increment precedes the post-completion
cancellation check) — and is left unchanged on agent-error runs. -/
theorem c3_counter_increment (st : CtrlState) (inp : RunInput)
    (he : st.enabled = true) :
    (acceptInput st inp).state.accessibilityRequestId =
      (if inp.agentErrors then st.accessibilityRequestId
       else st.accessibilityRequestId + 1) := by
  cases herr : inp.agentErrors with
  | true => simp [acceptInput, he, herr]
  | false =>
    cases hc : (st.cancellationRequested || inp.cancelledAtFinalCheck) with
    | true => simp [acceptInput, he, herr, hc]
    | false =>
      simp [acceptInput, he, herr, hc]
      split
      · split <;> simp
      · simp

/-- C3 witness for the amended theorem. -/
theorem c3_counter_increment_witness :
    (acceptInput demoState cancelRun).state.accessibilityRequestId =
      (if cancelRun.agentErrors then demoState.accessibilityRequestId
       else demoState.accessibilityRequestId + 1) :=
  c3_counter_increment demoState cancelRun (by decide)

/-- A concrete state whose feature flag is off. -/
def disabledState : CtrlState := { demoState with enabled := false }

/-- C4 counterexample: with the feature flag disabled, `acceptInput` is NOT a
no-op — line 123 unconditionally calls the accessibility service before the
first (never-bound) context key is touched, so a collaborator interaction
occurs, refuting "no interaction with the presentation sink or other
collaborators". -/
theorem c4_counterexample :
    ¬ ((acceptInput disabledState (singleRun "x")).events = []) := by
  decide

/-- C4 amended: with the feature flag disabled, `layout` and `xtermReady` are
no-ops (state unchanged, no collaborator calls), but `acceptInput` still
calls the accessibility service's `acceptRequest` and then crashes on the
unbound active-request context key, leaving the state unchanged. -/
theorem c4_disabled_behaviour (st : CtrlState) (dim : Dimension)
    (inp : RunInput) (hd : st.enabled = false) :
    layout st dim = (st, []) ∧
    xtermReady st = (st, []) ∧
    (acceptInput st inp).events = [Event.acceptRequest] ∧
    (acceptInput st inp).crashed = true ∧
    (acceptInput st inp).state = st := by
  simp [layout, xtermReady, acceptInput, hd]

/-- C4 witness for the amended theorem. -/
theorem c4_disabled_behaviour_witness :
    layout disabledState ⟨80, 24⟩ = (disabledState, []) ∧
    xtermReady disabledState = (disabledState, []) ∧
    (acceptInput disabledState (singleRun "x")).events = [Event.acceptRequest] ∧
    (acceptInput disabledState (singleRun "x")).crashed = true ∧
    (acceptInput disabledState (singleRun "x")).state = disabledState :=
  c4_disabled_behaviour disabledState ⟨80, 24⟩ (singleRun "x") (by decide)

/-- C5: when the agent invocation errors, `acceptInput` swallows the error
(no crash), classifies the run as Failed, clears the active-request flag,
issues a progress-clear to the widget, makes no render call, and leaves both
the accessibility counter and the last-response-type flag unchanged. -/
theorem c5_agent_error_swallowed (st : CtrlState) (inp : RunInput)
    (he : st.enabled = true) (herr : inp.agentErrors = true)
    (hw : st.widgetRawAttached = true) :
    (acceptInput st inp).crashed = false ∧
    (acceptInput st inp).outcome = some Outcome.failed ∧
    (acceptInput st inp).state.ctxHasActiveRequest = false ∧
    Event.updateProgressClear ∈ (acceptInput st inp).events ∧
    hasRenderEvent (acceptInput st inp).events = false ∧
    (acceptInput st inp).state.accessibilityRequestId = st.accessibilityRequestId ∧
    (acceptInput st inp).state.ctxLastResponseType = st.ctxLastResponseType := by
  have hr := processChunks_any_none isRenderEvent (fun c => rfl)
  simp [acceptInput, he, herr, hw, hasRenderEvent, isRenderEvent, hr]

/-- C5 witness. -/
theorem c5_agent_error_swallowed_witness :
    (acceptInput demoState errorRun).crashed = false ∧
    (acceptInput demoState errorRun).outcome = some Outcome.failed ∧
    (acceptInput demoState errorRun).state.ctxHasActiveRequest = false ∧
    Event.updateProgressClear ∈ (acceptInput demoState errorRun).events ∧
    hasRenderEvent (acceptInput demoState errorRun).events = false ∧
    (acceptInput demoState errorRun).state.accessibilityRequestId =
      demoState.accessibilityRequestId ∧
    (acceptInput demoState errorRun).state.ctxLastResponseType =
      demoState.ctxLastResponseType :=
  c5_agent_error_swallowed demoState errorRun (by decide) (by decide) (by decide)

/-- C6: on every run with a successful agent invocation, no cancellation, and
the widget attached, exactly one of `renderTerminalCommand` and
`renderMessage` is called — never both, never neither — and whenever the
message render occurs, the last-response-type context key is set to
message-only. -/
theorem c6_exactly_one_render (st : CtrlState) (inp : RunInput)
    (he : st.enabled = true) (hok : inp.agentErrors = false)
    (hsrc : st.cancellationRequested = false)
    (hfin : inp.cancelledAtFinalCheck = false)
    (hw : st.widgetRawAttached = true) :
    countRender (acceptInput st inp).events = 1 ∧
    ((acceptInput st inp).events.any isMessageRender = true →
      (acceptInput st inp).state.ctxLastResponseType =
        some InlineChatResponseTypes.onlyMessages) := by
  have hfil := processChunks_filter_none isRenderEvent (fun c => rfl)
  have hany := processChunks_any_none isMessageRender (fun c => rfl)
  simp [acceptInput, he, hok, hsrc, hfin, hw, countRender]
  split
  · split
    · simp [List.filter_append, hfil, isRenderEvent, isMessageRender]
    · simp [List.filter_append, hfil, isRenderEvent, isMessageRender]
      intro a ha hma
      exfalso
      have hmsg := List.any_eq_false.mp (hany false true "" inp.chunks)
      rcases ha with h | h | h
      · exact hmsg a h hma
      · subst h; simp [isMessageRender] at hma
      · subst h; simp [isMessageRender] at hma
  · simp [List.filter_append, hfil, isRenderEvent, isMessageRender]

/-- C6 witness. -/
theorem c6_exactly_one_render_witness :
    countRender (acceptInput demoState (singleRun "hello")).events = 1 ∧
    ((acceptInput demoState (singleRun "hello")).events.any isMessageRender
        = true →
      (acceptInput demoState (singleRun "hello")).state.ctxLastResponseType =
        some InlineChatResponseTypes.onlyMessages) :=
  c6_exactly_one_render demoState (singleRun "hello") (by decide) (by decide)
    (by decide) (by decide) (by decide)

/-- C7: command extraction (lexer spec-modelled, see `splitAtFence`): a
buffer holding the fenced block three-backticks echo hi three-backticks
yields the Command text "echo hi" with no fence markers — both at the
extraction function and through a full `acceptInput` run — while a buffer
with no fenced block yields a Message whose text equals the full buffer. -/
theorem c7_command_extraction (st : CtrlState) (msg : String)
    (he : st.enabled = true) (hw : st.widgetRawAttached = true)
    (hsrc : st.cancellationRequested = false)
    (hnone : firstFencedRawStr msg = none) :
    extractCommand "```echo hi```" = some "echo hi" ∧
    (acceptInput demoState (singleRun "```echo hi```")).events.contains
        (Event.renderTerminalCommand "echo hi" 1) = true ∧
    (acceptInput st (singleRun msg)).outcome = some Outcome.message ∧
    (acceptInput st (singleRun msg)).buffer = msg ∧
    (acceptInput st (singleRun msg)).events.contains
        (Event.renderMessage msg (st.accessibilityRequestId + 1)) = true := by
  have hbuf : processChunks false true "" [⟨⟨ChunkKind.content, msg⟩, false⟩] =
      (msg, [Event.updateProgressChunk ⟨ChunkKind.content, msg⟩]) := by
    simp [processChunks, chunkText, String.empty_append]
  refine ⟨by decide, by decide, ?_, ?_, ?_⟩ <;>
    simp [acceptInput, singleRun, he, hw, hsrc, hbuf, extractCommand, hnone]

/-- C7 witness: instantiated at the fence-free buffer "hello". -/
theorem c7_command_extraction_witness :
    extractCommand "```echo hi```" = some "echo hi" ∧
    (acceptInput demoState (singleRun "```echo hi```")).events.contains
        (Event.renderTerminalCommand "echo hi" 1) = true ∧
    (acceptInput demoState (singleRun "hello")).outcome = some Outcome.message ∧
    (acceptInput demoState (singleRun "hello")).buffer = "hello" ∧
    (acceptInput demoState (singleRun "hello")).events.contains
        (Event.renderMessage "hello" (demoState.accessibilityRequestId + 1))
      = true :=
  c7_command_extraction demoState "hello" (by decide) (by decide) (by decide)
    (by decide)

/-- C8: while cancellation is never observed, the running buffer equals the
in-order concatenation of the content of the text-bearing chunks (kinds
content and markdown-content), and every chunk — text-bearing or not — is
forwarded, in arrival order, to the widget's progress update. -/
theorem c8_buffer_is_ordered_concat (ds : List DeliveredChunk)
    (h : ∀ d ∈ ds, d.cancelledAtDelivery = false) :
    (processChunks false true "" ds).1 = specTextConcat ds ∧
    (processChunks false true "" ds).2 =
      ds.map (fun d => Event.updateProgressChunk d.chunk) := by
  rw [processChunks_live "" ds h]
  exact ⟨String.empty_append _, rfl⟩

/-- C8 witness: one chunk of each kind. -/
theorem c8_buffer_is_ordered_concat_witness :
    (processChunks false true ""
        [⟨⟨ChunkKind.content, "a"⟩, false⟩,
         ⟨⟨ChunkKind.other, "x"⟩, false⟩,
         ⟨⟨ChunkKind.markdownContent, "b"⟩, false⟩]).1 =
      specTextConcat
        [⟨⟨ChunkKind.content, "a"⟩, false⟩,
         ⟨⟨ChunkKind.other, "x"⟩, false⟩,
         ⟨⟨ChunkKind.markdownContent, "b"⟩, false⟩] ∧
    (processChunks false true ""
        [⟨⟨ChunkKind.content, "a"⟩, false⟩,
         ⟨⟨ChunkKind.other, "x"⟩, false⟩,
         ⟨⟨ChunkKind.markdownContent, "b"⟩, false⟩]).2 =
      List.map (fun d : DeliveredChunk => Event.updateProgressChunk d.chunk)
        [⟨⟨ChunkKind.content, "a"⟩, false⟩,
         ⟨⟨ChunkKind.other, "x"⟩, false⟩,
         ⟨⟨ChunkKind.markdownContent, "b"⟩, false⟩] :=
  c8_buffer_is_ordered_concat
    [⟨⟨ChunkKind.content, "a"⟩, false⟩,
     ⟨⟨ChunkKind.other, "x"⟩, false⟩,
     ⟨⟨ChunkKind.markdownContent, "b"⟩, false⟩] (by decide)

/-- C9: the stripping step (`replaceAll` of the triple backtick, line 157)
removes every triple-backtick sequence from the first code token's raw text,
not only the two surrounding delimiters, and the raw text keeps the fence's
info string: the buffer with fenced block "bash newline echo hi" yields a
Command equal to (hence beginning with) the info string "bash", followed by
the code body — and through a full run that exact text is rendered. -/
theorem c9_info_string_kept :
    extractCommand "```bash\necho hi\n```" = some ("bash" ++ "\necho hi\n") ∧
    stripFences "```a``` mid ```b```" = "a mid b" ∧
    (acceptInput demoState (singleRun "```bash\necho hi\n```")).events.contains
        (Event.renderTerminalCommand "bash\necho hi\n" 1) = true := by
  decide

/-- C10: a buffer consisting only of fence markers produces a code token
whose raw text strips to the empty string; the empty string is falsy, so
`acceptInput` takes the message branch: the full buffer is rendered as a
Message and the last-response-type flag is set, even though a fenced block
was present. -/
theorem c10_empty_fence_takes_message_branch :
    extractCommand "``````" = some "" ∧
    (acceptInput demoState (singleRun "``````")).outcome =
      some Outcome.message ∧
    (acceptInput demoState (singleRun "``````")).events.contains
        (Event.renderMessage "``````" 1) = true ∧
    (acceptInput demoState (singleRun "``````")).state.ctxLastResponseType =
      some InlineChatResponseTypes.onlyMessages := by
  decide

end TerminalChat
